import Mathlib

/-!
Shallow embedding of the realtime WebSocket gateway of this repository
(src/services/websocket.service.js): upgrade handshake and origin policy,
connection registry (single device slot plus a client map), heartbeat and
staleness supervision, the sensor-data ingestion and broadcast pipeline,
and the command relay.

Timestamps are natural numbers (milliseconds since epoch).  The external
sensor store is modelled by a boolean oracle saying whether the save call
succeeds.  JS objects with possibly-absent fields are modelled with Option
fields; the object spread in handleSensorData is modelled field by field —
a field present in the incoming message overrides the freshly stamped
default, exactly as the trailing spread does in the source.
-/

namespace Gateway

/-- Ready states of a websocket handle (the ws library constants). -/
inductive ReadyState
  | connecting
  | rsOpen
  | closing
  | closed
deriving DecidableEq, Repr

/-- A web client connection handle: the heartbeat flag the service stores on
it, its transport ready state, and whether a send on it throws. -/
structure ClientConn where
  isAlive : Bool
  readyState : ReadyState
  sendFails : Bool
deriving DecidableEq, Repr

/-- The single ESP32 device handle (identified by a ghost id so that closing
the old handle can be observed). -/
structure DevHandle where
  hid : Nat
  readyState : ReadyState
  sendFails : Bool
deriving DecidableEq, Repr

/-- The deviceInfo object stored inside esp32Status; every field may be
absent (undefined in JS). -/
structure DeviceInfoRec where
  deviceName : Option String := none
  firmwareVersion : Option String := none
  capabilities : List String := []
  sensorTypes : List String := []
  batteryLevel : Option Int := none
  signalStrength : Option Int := none
  status : Option String := none
deriving DecidableEq, Repr

/-- The esp32Status singleton of the service. -/
structure ESP32Status where
  connected : Bool
  lastSeen : Option Nat
  deviceInfo : Option DeviceInfoRec
  sensorTypes : List String
  isStreaming : Bool
deriving DecidableEq, Repr

/-- esp32Status as initialised in the constructor. -/
def initialStatus : ESP32Status :=
  { connected := false, lastSeen := none, deviceInfo := none,
    sensorTypes := [], isStreaming := false }

/-- The clients map, insertion ordered, keyed by user id. -/
abbrev ClientMap := List (String × ClientConn)

/-- Whole-service state: clients map, device slot, device status. -/
structure GatewayState where
  clients : ClientMap
  esp32Client : Option DevHandle
  esp32Status : ESP32Status
deriving DecidableEq, Repr

/-- State at service construction. -/
def initialState : GatewayState :=
  { clients := [], esp32Client := none, esp32Status := initialStatus }

/-- Fields of a structured sensor-data device message that the pipeline
reads; absent fields are none. -/
structure SensorMsg where
  sensorType : Option String := none
  data : Option String := none
  timestamp : Option Nat := none
  deviceId : Option String := none
deriving DecidableEq, Repr

/-- Fields of a structured status-update device message. -/
structure StatusMsg where
  isStreaming : Option Bool := none
  batteryLevel : Option Int := none
  signalStrength : Option Int := none
  status : Option String := none
deriving DecidableEq, Repr

/-- Fields of a structured device-info device message. -/
structure DeviceInfoMsg where
  deviceName : Option String := none
  firmwareVersion : Option String := none
  capabilities : Option (List String) := none
  sensorTypes : Option (List String) := none
  batteryLevel : Option Int := none
  signalStrength : Option Int := none
deriving DecidableEq, Repr

/-- A client control-esp32 message. -/
structure ControlMsg where
  command : String
  parameters : Option String := none
deriving DecidableEq, Repr

/-- The enriched sensorData object built in handleSensorData (after the
trailing object spread). -/
structure SensorDataRec where
  timestamp : Nat
  sensorType : String
  data : String
  deviceId : String
deriving DecidableEq, Repr

/-- The SensorReading document handed to the sensor store. -/
structure SensorReading where
  deviceId : String
  sensorType : String
  data : String
  timestamp : Nat
  metaBatteryLevel : Option Int
  metaSignalStrength : Option Int
deriving DecidableEq, Repr

/-- Outbound message envelopes (payload abstracted to the fields the
specification talks about). -/
inductive OutMsg
  | connectionEstablished (serverTime : Nat)
  | esp32Status (status : String) (lastSeen : Option Nat)
  | esp32DeviceInfo (di : DeviceInfoRec)
  | esp32StatusUpdate
  | sensorData (sd : SensorDataRec)
  | audioData (size : Nat)
  | command (cmd : String) (params : String) (requestId : String) (fromUserId : String)
  | commandSent (cmd : String)
  | errorMsg (msg : String)
  | pongMsg (ts : Nat)
deriving DecidableEq, Repr

/-- Observable side effects of a handler run. -/
inductive Event
  | storeSave (r : SensorReading) (ok : Bool)
  | broadcastCall (m : OutMsg) (successCount : Nat)
  | sentToDevice (m : OutMsg) (delivered : Bool)
  | sentToUser (uid : String) (m : OutMsg) (delivered : Bool)
  | closedDevice (hid : Nat)
  | terminatedClient (uid : String)
  | pingedClient (uid : String)
  | pingedDevice
deriving DecidableEq, Repr

/-- Structured device messages, dispatched by their type tag. -/
inductive EspMessage
  | deviceInfoMsg (m : DeviceInfoMsg)
  | sensorDataMsg (m : SensorMsg)
  | statusUpdateMsg (m : StatusMsg)
  | pingMsg
  | otherMsg (t : String)
deriving DecidableEq, Repr

/-- An inbound device frame: binary payload, unparsable text, or a
structured message. -/
inductive EspFrame
  | binary (size : Nat)
  | malformed
  | structured (m : EspMessage)
deriving DecidableEq, Repr

/-- Map.get on the clients map. -/
def lookupClient (cs : ClientMap) (uid : String) : Option ClientConn :=
  (cs.find? (fun p => decide (p.1 = uid))).map (fun p => p.2)

/-- Map.delete on the clients map (removeClient in the source). -/
def removeClient (cs : ClientMap) (uid : String) : ClientMap :=
  cs.filter (fun p => !(decide (p.1 = uid)))

/-- True when no entry of the map has the key uid. -/
def keyFree (uid : String) (cs : ClientMap) : Bool :=
  cs.all (fun p => !(decide (p.1 = uid)))

/-- All keys of the map are pairwise distinct. -/
def nodupKeys : ClientMap → Bool
  | [] => true
  | p :: rest => keyFree p.1 rest && nodupKeys rest

/-- A client whose transport is open and whose send throws. -/
def isFailingConn (c : ClientConn) : Bool :=
  decide (c.readyState = ReadyState.rsOpen) && c.sendFails

/-- A client to which a send succeeds. -/
def isDeliverableConn (c : ClientConn) : Bool :=
  decide (c.readyState = ReadyState.rsOpen) && !c.sendFails

/-- sendToUser in the source: false when the client is missing or not open;
when the send throws, the client is removed and false is returned. -/
def sendToUser (cs : ClientMap) (uid : String) : ClientMap × Bool :=
  match lookupClient cs uid with
  | none => (cs, false)
  | some c =>
    if c.readyState ≠ ReadyState.rsOpen then (cs, false)
    else if c.sendFails then (removeClient cs uid, false)
    else (cs, true)

/-- Result of a broadcast: the clients map after any failure-driven removals,
the best-effort success count the source returns, and a ghost log of the
user ids whose send succeeded (the source only counts them). -/
structure BroadcastResult where
  clientsAfter : ClientMap
  successCount : Nat
  delivered : List String
deriving DecidableEq, Repr

/-- The forEach loop of broadcastToClients: visits the snapshot of entries in
insertion order; sendToUser may remove the entry being visited. -/
def broadcastLoop : ClientMap → ClientMap → Nat → List String → BroadcastResult
  | [], cur, n, acc => { clientsAfter := cur, successCount := n, delivered := acc }
  | p :: rest, cur, n, acc =>
    if (sendToUser cur p.1).2 then
      broadcastLoop rest (sendToUser cur p.1).1 (n + 1) (acc ++ [p.1])
    else broadcastLoop rest (sendToUser cur p.1).1 n acc

/-- broadcastToClients in the source. -/
def broadcastToClients (cs : ClientMap) : BroadcastResult :=
  broadcastLoop cs cs 0 []

/-- Runs a broadcast and records it as one broadcastCall event carrying the
returned success count. -/
def runBroadcast (cs : ClientMap) (m : OutMsg) : ClientMap × List Event :=
  ((broadcastToClients cs).clientsAfter,
   [Event.broadcastCall m (broadcastToClients cs).successCount])

/-- True when the device slot holds an open handle. -/
def deviceOpen (st : GatewayState) : Bool :=
  match st.esp32Client with
  | some d => decide (d.readyState = ReadyState.rsOpen)
  | none => false

/-- sendToESP32 in the source: attempts the send only on an open handle; a
throwing send is caught and reported as false. -/
def sendToESP32 (st : GatewayState) (m : OutMsg) : Bool × List Event :=
  match st.esp32Client with
  | some d =>
    if d.readyState = ReadyState.rsOpen then
      (!d.sendFails, [Event.sentToDevice m (!d.sendFails)])
    else (false, [])
  | none => (false, [])

/-- ESP32 staleness threshold (esp32TimeoutInterval, one minute). -/
def esp32TimeoutInterval : Nat := 60000

/-- Heartbeat period (heartbeatInterval, thirty seconds). -/
def heartbeatInterval : Nat := 30000

/-- The sensorData object built in handleSensorData.  The source writes the
stamped defaults first and then spreads the incoming message over them, so a
field present in the message wins; an absent field leaves the default. -/
def mkSensorData (now : Nat) (msg : SensorMsg) : SensorDataRec :=
  { timestamp := msg.timestamp.getD now,
    sensorType := msg.sensorType.getD "unknown",
    data := msg.data.getD "\x7b\x7d",
    deviceId := msg.deviceId.getD "esp32-main" }

/-- The SensorReading document saveSensorDataToDatabase constructs: payload
fields from the enriched sensorData object, metadata battery/signal read from
the current esp32Status.deviceInfo. -/
def mkReading (status : ESP32Status) (sd : SensorDataRec) : SensorReading :=
  { deviceId := sd.deviceId, sensorType := sd.sensorType, data := sd.data,
    timestamp := sd.timestamp,
    metaBatteryLevel := status.deviceInfo.bind (fun d => d.batteryLevel),
    metaSignalStrength := status.deviceInfo.bind (fun d => d.signalStrength) }

/-- handleSensorData: build the enriched record, save it (the save has its
own try/catch, so a failing store is only logged), then broadcast the same
record to all clients. -/
def handleSensorData (now : Nat) (storeOk : Bool) (st : GatewayState)
    (msg : SensorMsg) : GatewayState × List Event :=
  let sd := mkSensorData now msg
  let r := mkReading st.esp32Status sd
  let b := runBroadcast st.clients (OutMsg.sensorData sd)
  ({ st with clients := b.1 }, Event.storeSave r storeOk :: b.2)

/-- handleDeviceInfo: replace deviceInfo wholesale with the message's fields
(defaults applied), mirror sensorTypes, broadcast the device info. -/
def handleDeviceInfo (st : GatewayState) (m : DeviceInfoMsg) :
    GatewayState × List Event :=
  let di : DeviceInfoRec :=
    { deviceName := some (m.deviceName.getD "ESP32-Sensor"),
      firmwareVersion := some (m.firmwareVersion.getD "unknown"),
      capabilities := m.capabilities.getD [],
      sensorTypes := m.sensorTypes.getD [],
      batteryLevel := m.batteryLevel,
      signalStrength := m.signalStrength,
      status := none }
  let st1 := { st with esp32Status :=
    { st.esp32Status with
      deviceInfo := some di
      sensorTypes := m.sensorTypes.getD [] } }
  let b := runBroadcast st1.clients (OutMsg.esp32DeviceInfo di)
  ({ st1 with clients := b.1 }, b.2)

/-- handleStatusUpdate: set isStreaming from the message (false when absent),
spread the old deviceInfo and overwrite battery/signal/status, broadcast.
The handler does not consult esp32Status.connected. -/
def handleStatusUpdate (st : GatewayState) (m : StatusMsg) :
    GatewayState × List Event :=
  let old := (st.esp32Status.deviceInfo).getD {}
  let di : DeviceInfoRec :=
    { old with
      batteryLevel := m.batteryLevel
      signalStrength := m.signalStrength
      status := some (m.status.getD "online") }
  let st1 := { st with esp32Status :=
    { st.esp32Status with
      isStreaming := m.isStreaming.getD false
      deviceInfo := some di } }
  let b := runBroadcast st1.clients OutMsg.esp32StatusUpdate
  ({ st1 with clients := b.1 }, b.2)

/-- handleESP32Connection: an existing open handle is force-closed, then the
new handle is installed, connected and lastSeen are set, a confirmation is
sent to the device and the status change is broadcast. -/
def handleESP32Connection (now : Nat) (st : GatewayState) (ws : DevHandle) :
    GatewayState × List Event :=
  let closeEvts :=
    match st.esp32Client with
    | some old =>
      if old.readyState = ReadyState.rsOpen then [Event.closedDevice old.hid]
      else []
    | none => []
  let st1 := { st with
    esp32Client := some ws
    esp32Status := { st.esp32Status with
      connected := true
      lastSeen := some now } }
  let s := sendToESP32 st1 (OutMsg.connectionEstablished now)
  let b := runBroadcast st1.clients (OutMsg.esp32Status "connected" none)
  ({ st1 with clients := b.1 }, closeEvts ++ s.2 ++ b.2)

/-- handleESP32Disconnect: clear the slot, drop connected and isStreaming,
broadcast the disconnection. -/
def handleESP32Disconnect (st : GatewayState) : GatewayState × List Event :=
  let st1 := { st with
    esp32Client := none
    esp32Status := { st.esp32Status with
      connected := false
      isStreaming := false } }
  let b := runBroadcast st1.clients (OutMsg.esp32Status "disconnected" none)
  ({ st1 with clients := b.1 }, b.2)

/-- handleESP32Message: every inbound device frame first refreshes lastSeen;
binary frames are broadcast as audio data, unparsable frames are swallowed,
structured frames dispatch on their type tag, unknown tags are dropped. -/
def handleESP32Message (now : Nat) (storeOk : Bool) (st : GatewayState)
    (f : EspFrame) : GatewayState × List Event :=
  let st1 := { st with esp32Status :=
    { st.esp32Status with lastSeen := some now } }
  match f with
  | EspFrame.binary size =>
    let b := runBroadcast st1.clients (OutMsg.audioData size)
    ({ st1 with clients := b.1 }, b.2)
  | EspFrame.malformed => (st1, [])
  | EspFrame.structured (EspMessage.deviceInfoMsg m) => handleDeviceInfo st1 m
  | EspFrame.structured (EspMessage.sensorDataMsg m) =>
    handleSensorData now storeOk st1 m
  | EspFrame.structured (EspMessage.statusUpdateMsg m) => handleStatusUpdate st1 m
  | EspFrame.structured EspMessage.pingMsg =>
    let s := sendToESP32 st1 (OutMsg.pongMsg now)
    (st1, s.2)
  | EspFrame.structured (EspMessage.otherMsg _) => (st1, [])

/-- checkESP32Status: when connected with a recorded lastSeen and the quiet
time exceeds the timeout, drop connected and broadcast offline; the device
transport is left untouched. -/
def checkESP32Status (now : Nat) (st : GatewayState) : GatewayState × List Event :=
  match st.esp32Status.lastSeen with
  | some ls =>
    if st.esp32Status.connected = true ∧ now - ls > esp32TimeoutInterval then
      let st1 := { st with esp32Status :=
        { st.esp32Status with connected := false } }
      let b := runBroadcast st1.clients (OutMsg.esp32Status "offline" (some ls))
      ({ st1 with clients := b.1 }, b.2)
    else (st, [])
  | none => (st, [])

/-- Clients surviving one heartbeat tick: an entry whose alive flag is false
is terminated (its close handler then removes it from the map); a live entry
has its flag reset to false and is pinged. -/
def hbFilter (cs : ClientMap) : ClientMap :=
  cs.filterMap (fun p =>
    if p.2.isAlive then some (p.1, { p.2 with isAlive := false }) else none)

/-- One tick of the heartbeat interval of startHeartbeat: probe or terminate
every client, then ping the device when its handle is open. -/
def heartbeatCycle (st : GatewayState) : GatewayState × List Event :=
  let evts := st.clients.map (fun p =>
    if p.2.isAlive then Event.pingedClient p.1 else Event.terminatedClient p.1)
  let devEvts := if deviceOpen st then [Event.pingedDevice] else []
  ({ st with clients := hbFilter st.clients }, evts ++ devEvts)

/-- The pong listener installed on a client socket: set its alive flag. -/
def handleClientPong (cs : ClientMap) (uid : String) : ClientMap :=
  cs.map (fun p => if p.1 = uid then (p.1, { p.2 with isAlive := true }) else p)

/-- addClient: a duplicate identity replaces the old handle in place (the old
one is closed); a fresh identity is appended. -/
def addClient (cs : ClientMap) (uid : String) (c : ClientConn) : ClientMap :=
  if (lookupClient cs uid).isSome then
    cs.map (fun p => if p.1 = uid then (uid, c) else p)
  else cs ++ [(uid, c)]

/-- handleControlESP32: with no open device handle, reply to the requester
with an error and send nothing to the device; otherwise forward a command
envelope carrying a generated requestId and the requesting identity, then
acknowledge the requester. -/
def handleControlESP32 (now : Nat) (st : GatewayState) (userId : String)
    (m : ControlMsg) : GatewayState × List Event :=
  if deviceOpen st then
    let env := OutMsg.command m.command (m.parameters.getD "\x7b\x7d")
      ("cmd_" ++ toString now) userId
    let s := sendToESP32 st env
    let u := sendToUser st.clients userId
    ({ st with clients := u.1 },
     s.2 ++ [Event.sentToUser userId (OutMsg.commandSent m.command) u.2])
  else
    let u := sendToUser st.clients userId
    ({ st with clients := u.1 },
     [Event.sentToUser userId (OutMsg.errorMsg "ESP32 not connected") u.2])

/-- Gateway configuration relevant to the handshake. -/
structure GatewayConfig where
  corsAllowed : List String
  host : String
  port : String
  devMode : Bool
deriving DecidableEq, Repr

/-- The allow-list built in isOriginAllowed: configured origins plus the
server's own host:port and the localhost development origin. -/
def allowedOrigins (cfg : GatewayConfig) : List String :=
  cfg.corsAllowed ++
    ["http://" ++ cfg.host ++ ":" ++ cfg.port, "http://localhost:3000"]

/-- isOriginAllowed: an absent or empty origin is always allowed, as is any
origin in development mode; otherwise the origin must be in the allow-list
or the allow-list must contain the wildcard. -/
def isOriginAllowed (cfg : GatewayConfig) (origin : Option String) : Bool :=
  match origin with
  | none => true
  | some o =>
    if o = "" ∨ cfg.devMode = true then true
    else (allowedOrigins cfg).contains o || (allowedOrigins cfg).contains "*"

/-- An inbound upgrade request: target path, origin header, and the bearer
token extracted from query, protocol header or authorization header. -/
structure UpgradeRequest where
  pathname : String
  origin : Option String
  token : Option String

/-- Outcome of the upgrade handshake. -/
inductive UpgradeDecision
  | acceptDevice
  | acceptClient (uid : String)
  | rejected (reason : String)
deriving DecidableEq, Repr

/-- verifyClient: origin policy first, then token extraction, then the
credential verifier (jwt.verify plus user lookup, abstracted as an oracle
from token to identity). -/
def verifyClient (cfg : GatewayConfig) (verifier : String → Option String)
    (req : UpgradeRequest) : Except String String :=
  if isOriginAllowed cfg req.origin = false then Except.error "Origin not allowed"
  else
    match req.token with
    | none => Except.error "No token provided"
    | some t =>
      match verifier t with
      | some uid => Except.ok uid
      | none => Except.error "Invalid token"

/-- handleUpgrade: the device path short-circuits before any verification;
every other path goes through verifyClient. -/
def handleUpgrade (cfg : GatewayConfig) (verifier : String → Option String)
    (req : UpgradeRequest) : UpgradeDecision :=
  if req.pathname = "/esp32" then UpgradeDecision.acceptDevice
  else
    match verifyClient cfg verifier req with
    | Except.ok uid => UpgradeDecision.acceptClient uid
    | Except.error e => UpgradeDecision.rejected e

/-- Actions driving the gateway's step relation: device registration and
frames, transport closures, the two supervisor timers, client registration,
liveness responses and commands. -/
inductive GAction
  | registerDevice (now : Nat) (ws : DevHandle)
  | espFrame (now : Nat) (storeOk : Bool) (f : EspFrame)
  | espPong (now : Nat)
  | espClose
  | statusCheck (now : Nat)
  | heartbeat
  | registerClient (uid : String) (c : ClientConn)
  | clientPong (uid : String)
  | clientClose (uid : String)
  | controlEsp32 (now : Nat) (uid : String) (m : ControlMsg)
deriving Repr

/-- One gateway step together with its observable events. -/
def stepEv (st : GatewayState) : GAction → GatewayState × List Event
  | GAction.registerDevice now ws => handleESP32Connection now st ws
  | GAction.espFrame now storeOk f => handleESP32Message now storeOk st f
  | GAction.espPong now =>
    ({ st with esp32Status := { st.esp32Status with lastSeen := some now } }, [])
  | GAction.espClose => handleESP32Disconnect st
  | GAction.statusCheck now => checkESP32Status now st
  | GAction.heartbeat => heartbeatCycle st
  | GAction.registerClient uid c =>
    ({ st with clients := addClient st.clients uid { c with isAlive := true } }, [])
  | GAction.clientPong uid => ({ st with clients := handleClientPong st.clients uid }, [])
  | GAction.clientClose uid => ({ st with clients := removeClient st.clients uid }, [])
  | GAction.controlEsp32 now uid m => handleControlESP32 now st uid m

/-- The state reached by one step. -/
def stepState (st : GatewayState) (a : GAction) : GatewayState :=
  (stepEv st a).1

/-- States reachable from service construction. -/
inductive Reachable : GatewayState → Prop
  | init : Reachable initialState
  | step (s : GatewayState) (a : GAction) : Reachable s → Reachable (stepState s a)

/-- Recognises a sensor-store save attempt. -/
def isStoreSaveEvt : Event → Bool
  | Event.storeSave _ _ => true
  | _ => false

/-- Recognises a broadcast call. -/
def isBroadcastEvt : Event → Bool
  | Event.broadcastCall _ _ => true
  | _ => false

/-- The invariant claimed for streaming: isStreaming only while connected. -/
def streamInv (s : GatewayState) : Prop :=
  s.esp32Status.isStreaming = true → s.esp32Status.connected = true

/-- A healthy open client. -/
def connOK : ClientConn :=
  { isAlive := true, readyState := ReadyState.rsOpen, sendFails := false }

/-- An open client whose send throws. -/
def connBad : ClientConn :=
  { isAlive := true, readyState := ReadyState.rsOpen, sendFails := true }

/-- An open client that missed the last liveness probe. -/
def connStale : ClientConn :=
  { isAlive := false, readyState := ReadyState.rsOpen, sendFails := false }

/-- An open device handle. -/
def devOpen0 : DevHandle :=
  { hid := 0, readyState := ReadyState.rsOpen, sendFails := false }

/-- A second open device handle. -/
def devOpen1 : DevHandle :=
  { hid := 1, readyState := ReadyState.rsOpen, sendFails := false }

/-- Three clients, the middle one failing. -/
def bc3 : ClientMap := [("alice", connOK), ("bob", connBad), ("carol", connOK)]

/-- Two clients, the second unresponsive. -/
def hbSt : GatewayState :=
  { clients := [("alice", connOK), ("bob", connStale)], esp32Client := none,
    esp32Status := initialStatus }

/-- A connected device that has been silent since time 0. -/
def staleSt : GatewayState :=
  { clients := [("alice", connOK)], esp32Client := some devOpen0,
    esp32Status := { initialStatus with
      connected := true
      lastSeen := some 0 } }

/-- A state already holding an open device handle. -/
def devSt : GatewayState :=
  { clients := [], esp32Client := some devOpen0, esp32Status := initialStatus }

/-- One client, no device. -/
def noDevSt : GatewayState :=
  { clients := [("alice", connOK)], esp32Client := none,
    esp32Status := initialStatus }

/-- One client and an open device. -/
def devSt2 : GatewayState :=
  { clients := [("alice", connOK)], esp32Client := some devOpen0,
    esp32Status := initialStatus }

/-- A connected, streaming device. -/
def connectedSt : GatewayState :=
  { clients := [], esp32Client := some devOpen0,
    esp32Status := { initialStatus with
      connected := true
      lastSeen := some 0
      isStreaming := true } }

/-- A concrete control command. -/
def ctlMsg : ControlMsg := { command := "start" }

/-- A sensor message that smuggles its own timestamp and deviceId, which the
trailing spread lets override the stamped values. -/
def msgSpoof : SensorMsg :=
  { sensorType := some "temp", data := some "21.5", timestamp := some 5,
    deviceId := some "spoof" }

/-- A production configuration with an empty configured allow-list. -/
def cfgStrict : GatewayConfig :=
  { corsAllowed := [], host := "localhost", port := "8000", devMode := false }

/-- A credential verifier that rejects everything. -/
def noVerifier : String → Option String := fun _ => none

/-- A device-path upgrade request from a disallowed origin. -/
def reqEspEvil : UpgradeRequest :=
  { pathname := "/esp32", origin := some "http://evil.example", token := none }

/-- A device-path upgrade request with no origin header. -/
def reqEspNoOrigin : UpgradeRequest :=
  { pathname := "/esp32", origin := none, token := none }

/-- Reachable state violating the streaming invariant: register the device,
receive a status-update with isStreaming true, then let the staleness check
fire (it clears connected but not isStreaming). -/
def stStreamBroken : GatewayState :=
  stepState
    (stepState (stepState initialState (GAction.registerDevice 0 devOpen0))
      (GAction.espFrame 10 true
        (EspFrame.structured (EspMessage.statusUpdateMsg { isStreaming := some true }))))
    (GAction.statusCheck 100000)

/-! Helper lemmas about the clients map. -/

theorem keyFree_iff (uid : String) (cs : ClientMap) :
    keyFree uid cs = true ↔ ∀ p ∈ cs, p.1 ≠ uid := by
  simp [keyFree, List.all_eq_true]

theorem keyFree_append (uid : String) (l₁ l₂ : ClientMap) :
    keyFree uid (l₁ ++ l₂) = (keyFree uid l₁ && keyFree uid l₂) := by
  simp [keyFree, List.all_append]

theorem keyFree_cons (uid : String) (p : String × ClientConn) (cs : ClientMap) :
    keyFree uid (p :: cs) = (!(decide (p.1 = uid)) && keyFree uid cs) := by
  simp [keyFree, List.all_cons]

theorem lookupClient_cons (p : String × ClientConn) (cs : ClientMap) (uid : String) :
    lookupClient (p :: cs) uid =
      if p.1 = uid then some p.2 else lookupClient cs uid := by
  by_cases h : p.1 = uid <;> simp [lookupClient, List.find?, h]

theorem lookupClient_of_keyFree (uid : String) (cs : ClientMap)
    (h : keyFree uid cs = true) : lookupClient cs uid = none := by
  induction cs with
  | nil => rfl
  | cons p rest ih =>
    rw [keyFree_iff] at h
    rw [lookupClient_cons]
    have hp : p.1 ≠ uid := h p (by simp)
    rw [if_neg hp]
    exact ih (by rw [keyFree_iff]; exact fun q hq => h q (by simp [hq]))

theorem lookupClient_append (uid : String) (l₁ l₂ : ClientMap)
    (h : keyFree uid l₁ = true) :
    lookupClient (l₁ ++ l₂) uid = lookupClient l₂ uid := by
  induction l₁ with
  | nil => simp
  | cons p rest ih =>
    rw [keyFree_iff] at h
    rw [List.cons_append, lookupClient_cons]
    have hp : p.1 ≠ uid := h p (by simp)
    rw [if_neg hp]
    exact ih (by rw [keyFree_iff]; exact fun q hq => h q (by simp [hq]))

theorem removeClient_cons (p : String × ClientConn) (cs : ClientMap) (uid : String) :
    removeClient (p :: cs) uid =
      if p.1 = uid then removeClient cs uid else p :: removeClient cs uid := by
  by_cases h : p.1 = uid <;> simp [removeClient, List.filter_cons, h]

theorem removeClient_of_keyFree (uid : String) (cs : ClientMap)
    (h : keyFree uid cs = true) : removeClient cs uid = cs := by
  induction cs with
  | nil => rfl
  | cons p rest ih =>
    rw [keyFree_iff] at h
    have hp : p.1 ≠ uid := h p (by simp)
    rw [removeClient_cons, if_neg hp]
    rw [ih (by rw [keyFree_iff]; exact fun q hq => h q (by simp [hq]))]

theorem removeClient_append (uid : String) (l₁ l₂ : ClientMap) :
    removeClient (l₁ ++ l₂) uid = removeClient l₁ uid ++ removeClient l₂ uid := by
  simp [removeClient, List.filter_append]

theorem nodupKeys_append_cons (pre : ClientMap) (p : String × ClientConn)
    (rest : ClientMap) (h : nodupKeys (pre ++ p :: rest) = true) :
    keyFree p.1 pre = true ∧ keyFree p.1 rest = true ∧
      nodupKeys (pre ++ rest) = true := by
  induction pre with
  | nil =>
    rw [List.nil_append, nodupKeys, Bool.and_eq_true] at h
    exact ⟨rfl, h.1, h.2⟩
  | cons q pre ih =>
    rw [List.cons_append, nodupKeys, Bool.and_eq_true] at h
    obtain ⟨hq, hrest⟩ := h
    rw [keyFree_append, Bool.and_eq_true] at hq
    obtain ⟨hqpre, hqcons⟩ := hq
    rw [keyFree_cons, Bool.and_eq_true] at hqcons
    obtain ⟨hpq, hqrest⟩ := hqcons
    have hpq' : p.1 ≠ q.1 := by
      intro hh
      rw [hh] at hpq
      simp at hpq
    obtain ⟨h1, h2, h3⟩ := ih hrest
    refine ⟨?_, h2, ?_⟩
    · rw [keyFree_cons, Bool.and_eq_true]
      constructor
      · simp [hpq'.symm]
      · exact h1
    · rw [List.cons_append, nodupKeys, Bool.and_eq_true]
      refine ⟨?_, h3⟩
      rw [keyFree_append, Bool.and_eq_true]
      exact ⟨hqpre, hqrest⟩

theorem isDeliverable_not_failing (c : ClientConn)
    (h : isDeliverableConn c = true) : isFailingConn c = false := by
  rw [isDeliverableConn, Bool.and_eq_true] at h
  rw [isFailingConn, h.1]
  simp at h
  simp [h.2]

/-! Helper lemmas about broadcast. -/

theorem sendToUser_at_head (pre rest : ClientMap) (p : String × ClientConn)
    (hpre : keyFree p.1 pre = true) (hrest : keyFree p.1 rest = true) :
    sendToUser (pre ++ p :: rest) p.1 =
      ((if isFailingConn p.2 then pre ++ rest else pre ++ p :: rest),
       isDeliverableConn p.2) := by
  have hl : lookupClient (pre ++ p :: rest) p.1 = some p.2 := by
    rw [lookupClient_append _ _ _ hpre, lookupClient_cons, if_pos rfl]
  have hrm : removeClient (pre ++ p :: rest) p.1 = pre ++ rest := by
    rw [removeClient_append, removeClient_of_keyFree _ _ hpre,
      removeClient_cons, if_pos rfl, removeClient_of_keyFree _ _ hrest]
  by_cases ho : p.2.readyState = ReadyState.rsOpen
  · by_cases hf : p.2.sendFails
    · simp [sendToUser, hl, hrm, ho, hf, isFailingConn, isDeliverableConn]
    · simp [sendToUser, hl, ho, hf, isFailingConn, isDeliverableConn]
  · simp [sendToUser, hl, ho, isFailingConn, isDeliverableConn]

theorem broadcastLoop_go (snap : ClientMap) :
    ∀ (pre : ClientMap) (n : Nat) (acc : List String),
    nodupKeys (pre ++ snap) = true →
    broadcastLoop snap (pre ++ snap) n acc =
      { clientsAfter := pre ++ snap.filter (fun p => !(isFailingConn p.2))
        successCount := n + snap.countP (fun p => isDeliverableConn p.2)
        delivered :=
          acc ++ (snap.filter (fun p => isDeliverableConn p.2)).map Prod.fst } := by
  induction snap with
  | nil =>
    intro pre n acc _
    simp [broadcastLoop]
  | cons p rest ih =>
    intro pre n acc h
    obtain ⟨h1, h2, h3⟩ := nodupKeys_append_cons pre p rest h
    rw [broadcastLoop, sendToUser_at_head pre rest p h1 h2]
    by_cases hd : isDeliverableConn p.2 = true
    · have hfx : isFailingConn p.2 = false := isDeliverable_not_failing p.2 hd
      rw [hfx]
      simp only [Bool.false_eq_true, if_false, hd, if_true]
      have hre : pre ++ p :: rest = (pre ++ [p]) ++ rest := by simp
      rw [hre]
      rw [ih (pre ++ [p]) (n + 1) (acc ++ [p.1]) (by rw [← hre]; exact h)]
      simp [List.filter_cons, hd, hfx, List.countP_cons]
      omega
    · have hd' : isDeliverableConn p.2 = false := by
        simp only [Bool.not_eq_true] at hd
        exact hd
      rw [hd']
      simp only [Bool.false_eq_true, if_false]
      by_cases hf : isFailingConn p.2 = true
      · rw [hf]
        simp only [if_true]
        rw [ih pre n acc h3]
        simp [List.filter_cons, hf, hd', List.countP_cons]
      · have hf' : isFailingConn p.2 = false := by
          simp only [Bool.not_eq_true] at hf
          exact hf
        rw [hf']
        simp only [Bool.false_eq_true, if_false]
        have hre : pre ++ p :: rest = (pre ++ [p]) ++ rest := by simp
        rw [hre]
        rw [ih (pre ++ [p]) n acc (by rw [← hre]; exact h)]
        simp [List.filter_cons, hf', hd', List.countP_cons]

theorem broadcastToClients_spec (cs : ClientMap) (h : nodupKeys cs = true) :
    broadcastToClients cs =
      { clientsAfter := cs.filter (fun p => !(isFailingConn p.2))
        successCount := cs.countP (fun p => isDeliverableConn p.2)
        delivered := (cs.filter (fun p => isDeliverableConn p.2)).map Prod.fst } := by
  have := broadcastLoop_go cs [] 0 [] (by simpa using h)
  simpa [broadcastToClients] using this

/-! Helper lemmas about the heartbeat cycle. -/

theorem hbFilter_keyFree (uid : String) (cs : ClientMap)
    (h : keyFree uid cs = true) : keyFree uid (hbFilter cs) = true := by
  rw [keyFree_iff] at h ⊢
  intro q hq
  rw [hbFilter, List.mem_filterMap] at hq
  obtain ⟨r, hr, he⟩ := hq
  by_cases ha : r.2.isAlive
  · rw [if_pos ha] at he
    have : q.1 = r.1 := by
      cases he
      rfl
    rw [this]
    exact h r hr
  · rw [if_neg ha] at he
    cases he

theorem hbFilter_cons (p : String × ClientConn) (cs : ClientMap) :
    hbFilter (p :: cs) =
      if p.2.isAlive then (p.1, { p.2 with isAlive := false }) :: hbFilter cs
      else hbFilter cs := by
  by_cases h : p.2.isAlive <;> simp [hbFilter, List.filterMap_cons, h]

theorem hb_lookup (cs : ClientMap) (uid : String) (c : ClientConn)
    (hm : (uid, c) ∈ cs) (hnd : nodupKeys cs = true) :
    lookupClient (hbFilter cs) uid =
      if c.isAlive then some { c with isAlive := false } else none := by
  induction cs with
  | nil => cases hm
  | cons p rest ih =>
    obtain ⟨u, cc⟩ := p
    rw [nodupKeys, Bool.and_eq_true] at hnd
    obtain ⟨hkf, hnd'⟩ := hnd
    rcases List.mem_cons.mp hm with he | hm'
    · have hu : uid = u := congrArg Prod.fst he
      have hc : c = cc := congrArg Prod.snd he
      subst hu
      subst hc
      rw [hbFilter_cons]
      by_cases ha : c.isAlive
      · simp only [ha, if_true]
        rw [lookupClient_cons, if_pos rfl]
      · simp only [ha, Bool.false_eq_true, if_false]
        exact lookupClient_of_keyFree _ _ (hbFilter_keyFree _ _ hkf)
    · have hne : u ≠ uid := by
        rw [keyFree_iff] at hkf
        exact fun hh => (hkf (uid, c) hm') (by simpa using hh.symm)
      rw [hbFilter_cons]
      by_cases ha : cc.isAlive
      · simp only [ha, if_true]
        rw [lookupClient_cons, if_neg hne]
        exact ih hm' hnd'
      · simp only [ha, Bool.false_eq_true, if_false]
        exact ih hm' hnd'

theorem pong_lookup (cs : ClientMap) (uid : String) :
    lookupClient (handleClientPong cs uid) uid =
      (lookupClient cs uid).map (fun c => { c with isAlive := true }) := by
  induction cs with
  | nil => rfl
  | cons p rest ih =>
    obtain ⟨u, cc⟩ := p
    rw [handleClientPong, List.map_cons]
    by_cases hu : u = uid
    · simp only [hu, if_pos rfl]
      rw [lookupClient_cons, lookupClient_cons]
      simp
    · simp only [hu, if_false]
      rw [lookupClient_cons, lookupClient_cons]
      simp only [hu, if_false]
      rw [← handleClientPong]
      exact ih

theorem lookup_of_mem (cs : ClientMap) (uid : String) (c : ClientConn)
    (hm : (uid, c) ∈ cs) (hnd : nodupKeys cs = true) :
    lookupClient cs uid = some c := by
  induction cs with
  | nil => cases hm
  | cons p rest ih =>
    obtain ⟨u, cc⟩ := p
    rw [nodupKeys, Bool.and_eq_true] at hnd
    obtain ⟨hkf, hnd'⟩ := hnd
    rcases List.mem_cons.mp hm with he | hm'
    · have hu : uid = u := congrArg Prod.fst he
      have hc : c = cc := congrArg Prod.snd he
      subst hu
      subst hc
      rw [lookupClient_cons, if_pos rfl]
    · have hne : u ≠ uid := by
        rw [keyFree_iff] at hkf
        exact fun hh => (hkf (uid, c) hm') (by simpa using hh.symm)
      rw [lookupClient_cons, if_neg hne]
      exact ih hm' hnd'

theorem heartbeatCycle_clients (st : GatewayState) :
    (heartbeatCycle st).1.clients = hbFilter st.clients := rfl

theorem heartbeatCycle_events (st : GatewayState) :
    (heartbeatCycle st).2 =
      st.clients.map (fun p =>
        if p.2.isAlive then Event.pingedClient p.1
        else Event.terminatedClient p.1) ++
      (if deviceOpen st then [Event.pingedDevice] else []) := rfl

/-! Helper lemmas about the step relation. -/

theorem espFrame_connected (st : GatewayState) (now : Nat) (storeOk : Bool)
    (f : EspFrame) :
    (stepState st (GAction.espFrame now storeOk f)).esp32Status.connected =
      st.esp32Status.connected := by
  cases f with
  | binary size => rfl
  | malformed => rfl
  | structured m =>
    cases m with
    | deviceInfoMsg mm => rfl
    | sensorDataMsg mm => rfl
    | statusUpdateMsg mm => rfl
    | pingMsg => rfl
    | otherMsg t => rfl

theorem espFrame_lastSeen (st : GatewayState) (now : Nat) (storeOk : Bool)
    (f : EspFrame) :
    (stepState st (GAction.espFrame now storeOk f)).esp32Status.lastSeen =
      some now := by
  cases f with
  | binary size => rfl
  | malformed => rfl
  | structured m =>
    cases m with
    | deviceInfoMsg mm => rfl
    | sensorDataMsg mm => rfl
    | statusUpdateMsg mm => rfl
    | pingMsg => rfl
    | otherMsg t => rfl

/-! Claim theorems. -/

/-- C1: every structured sensor-data device message leads to exactly one
sensor-store save attempt and exactly one broadcast call, the broadcast
carries the same enriched record, and this holds for every store outcome —
in particular a failing save (storeOk = false) does not prevent the
broadcast, is attempted exactly once (no retry), and only its failure flag
differs. -/
theorem sensorData_one_save_one_broadcast (now : Nat) (storeOk : Bool)
    (st : GatewayState) (msg : SensorMsg) :
    (handleSensorData now storeOk st msg).2.countP isStoreSaveEvt = 1 ∧
    (handleSensorData now storeOk st msg).2.countP isBroadcastEvt = 1 ∧
    Event.storeSave (mkReading st.esp32Status (mkSensorData now msg)) storeOk ∈
      (handleSensorData now storeOk st msg).2 ∧
    (∃ n, Event.broadcastCall (OutMsg.sensorData (mkSensorData now msg)) n ∈
      (handleSensorData now storeOk st msg).2) := by
  refine ⟨?_, ?_, ?_, ⟨(broadcastToClients st.clients).successCount, ?_⟩⟩ <;>
    simp [handleSensorData, runBroadcast, isStoreSaveEvt, isBroadcastEvt,
      List.countP_cons]

/-- C5: a broadcast over a duplicate-free clients map delivers to every open
non-throwing client (also those positioned after a failing one), removes
exactly the clients whose send threw, returns the number of successful
deliveries, and never raises (it is a total function returning that count). -/
theorem broadcast_partial_failure_spec (cs : ClientMap)
    (h : nodupKeys cs = true) :
    (broadcastToClients cs).clientsAfter =
      cs.filter (fun p => !(isFailingConn p.2)) ∧
    (broadcastToClients cs).successCount =
      cs.countP (fun p => isDeliverableConn p.2) ∧
    (broadcastToClients cs).delivered =
      (cs.filter (fun p => isDeliverableConn p.2)).map Prod.fst ∧
    (broadcastToClients cs).successCount =
      (broadcastToClients cs).delivered.length := by
  rw [broadcastToClients_spec cs h]
  refine ⟨rfl, rfl, rfl, ?_⟩
  simp [List.countP_eq_length_filter]

/-- Witness for C5: three open clients with the middle send throwing — the
other two still receive the message, only the failing client is removed, and
the returned count is 2. -/
theorem broadcast_partial_failure_spec_witness :
    (broadcastToClients bc3).successCount = 2 ∧
    (broadcastToClients bc3).clientsAfter =
      [("alice", connOK), ("carol", connOK)] ∧
    (broadcastToClients bc3).delivered = ["alice", "carol"] := by
  have h := broadcast_partial_failure_spec bc3 (by decide)
  refine ⟨?_, ?_, ?_⟩
  · rw [h.2.1]
    decide
  · rw [h.1]
    decide
  · rw [h.2.2.1]
    decide

/-- C6 counterexample: the claim says the constructed SensorReading is
stamped with the current time and carries the fixed device identifier, but
the trailing object spread lets the message override both: handled at time
1000, a message carrying timestamp 5 and deviceId "spoof" is saved with
exactly those values. -/
theorem ingestion_stamp_counterexample :
    Event.storeSave (mkReading initialStatus (mkSensorData 1000 msgSpoof))
        true ∈ (handleSensorData 1000 true initialState msgSpoof).2 ∧
    (mkReading initialStatus (mkSensorData 1000 msgSpoof)).timestamp = 5 ∧
    (5 : Nat) ≠ 1000 ∧
    (mkReading initialStatus (mkSensorData 1000 msgSpoof)).deviceId = "spoof" ∧
    "spoof" ≠ "esp32-main" := by
  refine ⟨?_, rfl, by decide, rfl, by decide⟩
  simp [handleSensorData, runBroadcast, initialState]

/-- C6 amended: the saved SensorReading carries the message's timestamp when
the message supplies one and the current time otherwise, likewise the
message's deviceId when supplied and the fixed identifier otherwise; the
sensor type is the declared one with default "unknown", and the
battery/signal metadata are drawn from the current DeviceStatus. -/
theorem ingestion_stamp_amended (now : Nat) (storeOk : Bool)
    (st : GatewayState) (msg : SensorMsg) :
    Event.storeSave (mkReading st.esp32Status (mkSensorData now msg)) storeOk ∈
      (handleSensorData now storeOk st msg).2 ∧
    (mkSensorData now msg).timestamp = msg.timestamp.getD now ∧
    (mkSensorData now msg).sensorType = msg.sensorType.getD "unknown" ∧
    (mkSensorData now msg).deviceId = msg.deviceId.getD "esp32-main" ∧
    (mkReading st.esp32Status (mkSensorData now msg)).metaBatteryLevel =
      st.esp32Status.deviceInfo.bind (fun d => d.batteryLevel) ∧
    (mkReading st.esp32Status (mkSensorData now msg)).metaSignalStrength =
      st.esp32Status.deviceInfo.bind (fun d => d.signalStrength) := by
  refine ⟨?_, rfl, rfl, rfl, rfl, rfl⟩
  simp [handleSensorData, runBroadcast]

/-- C2: the registry holds at most one device handle in every reachable
state (the slot is a single optional field); registering a new device while
the old handle is still open force-closes the old handle; and after
registration the new handle is installed with connected set and lastSeen
stamped to now. -/
theorem device_registration_spec :
    (∀ s, Reachable s → s.esp32Client.toList.length ≤ 1) ∧
    (∀ now st ws old, st.esp32Client = some old →
      old.readyState = ReadyState.rsOpen →
      Event.closedDevice old.hid ∈ (handleESP32Connection now st ws).2) ∧
    (∀ now st ws,
      (handleESP32Connection now st ws).1.esp32Client = some ws ∧
      (handleESP32Connection now st ws).1.esp32Status.connected = true ∧
      (handleESP32Connection now st ws).1.esp32Status.lastSeen = some now) := by
  refine ⟨?_, ?_, ?_⟩
  · intro s _
    cases s.esp32Client <;> simp
  · intro now st ws old ho hr
    simp [handleESP32Connection, runBroadcast, ho, hr]
  · intro now st ws
    exact ⟨rfl, rfl, rfl⟩

/-- Witness for C2: a second open handle registered at time 5 over handle 0
closes handle 0 and installs handle 1 connected with lastSeen 5; the initial
state holds no device handle. -/
theorem device_registration_spec_witness :
    initialState.esp32Client.toList.length ≤ 1 ∧
    Event.closedDevice 0 ∈ (handleESP32Connection 5 devSt devOpen1).2 ∧
    (handleESP32Connection 5 devSt devOpen1).1.esp32Client = some devOpen1 ∧
    (handleESP32Connection 5 devSt devOpen1).1.esp32Status.connected = true ∧
    (handleESP32Connection 5 devSt devOpen1).1.esp32Status.lastSeen = some 5 := by
  have h := device_registration_spec
  exact ⟨h.1 initialState Reachable.init,
    h.2.1 5 devSt devOpen1 devOpen0 rfl rfl,
    (h.2.2 5 devSt devOpen1).1,
    (h.2.2 5 devSt devOpen1).2.1,
    (h.2.2 5 devSt devOpen1).2.2⟩

/-- C3: in a heartbeat cycle over a duplicate-free registry, a client whose
alive flag is still false is terminated and is gone from the registry
afterwards, a client whose flag is true is kept with its flag reset to false
and receives a liveness probe, and a liveness response from a client sets
its alive flag back to true. -/
theorem heartbeat_liveness_spec (st : GatewayState) (uid : String)
    (c : ClientConn) (hm : (uid, c) ∈ st.clients)
    (hnd : nodupKeys st.clients = true) :
    (c.isAlive = false →
      lookupClient (heartbeatCycle st).1.clients uid = none ∧
      Event.terminatedClient uid ∈ (heartbeatCycle st).2) ∧
    (c.isAlive = true →
      lookupClient (heartbeatCycle st).1.clients uid =
        some { c with isAlive := false } ∧
      Event.pingedClient uid ∈ (heartbeatCycle st).2) ∧
    lookupClient (handleClientPong st.clients uid) uid =
      some { c with isAlive := true } := by
  have hl := hb_lookup st.clients uid c hm hnd
  refine ⟨?_, ?_, ?_⟩
  · intro ha
    constructor
    · rw [heartbeatCycle_clients, hl, if_neg (by simp [ha])]
    · rw [heartbeatCycle_events]
      apply List.mem_append_left
      have := List.mem_map_of_mem (fun p : String × ClientConn =>
        if p.2.isAlive then Event.pingedClient p.1
        else Event.terminatedClient p.1) hm
      simpa [ha] using this
  · intro ha
    constructor
    · rw [heartbeatCycle_clients, hl, if_pos ha]
    · rw [heartbeatCycle_events]
      apply List.mem_append_left
      have := List.mem_map_of_mem (fun p : String × ClientConn =>
        if p.2.isAlive then Event.pingedClient p.1
        else Event.terminatedClient p.1) hm
      simpa [ha] using this
  · rw [pong_lookup, lookup_of_mem st.clients uid c hm hnd]
    rfl

/-- Witness for C3: with alice alive and bob stale, one cycle terminates and
evicts bob, keeps alice with the flag reset and pings her, and a pong from
bob would set his flag. -/
theorem heartbeat_liveness_spec_witness :
    lookupClient (heartbeatCycle hbSt).1.clients "bob" = none ∧
    Event.terminatedClient "bob" ∈ (heartbeatCycle hbSt).2 ∧
    lookupClient (heartbeatCycle hbSt).1.clients "alice" =
      some { connOK with isAlive := false } ∧
    Event.pingedClient "alice" ∈ (heartbeatCycle hbSt).2 ∧
    lookupClient (handleClientPong hbSt.clients "bob") "bob" =
      some { connStale with isAlive := true } := by
  have h1 := heartbeat_liveness_spec hbSt "bob" connStale (by decide) (by decide)
  have h2 := heartbeat_liveness_spec hbSt "alice" connOK (by decide) (by decide)
  exact ⟨(h1.1 rfl).1, (h1.1 rfl).2, (h2.2.1 rfl).1, (h2.2.1 rfl).2, h1.2.2⟩

/-- C4: when the device is marked connected and more than the timeout has
passed since lastSeen, the staleness check flips connected to false and
broadcasts an offline status, while the device transport handle is left
exactly as it was (no close event is emitted and the slot is unchanged). -/
theorem staleness_check_spec (st : GatewayState) (now ls : Nat)
    (hc : st.esp32Status.connected = true)
    (hl : st.esp32Status.lastSeen = some ls)
    (ht : now - ls > esp32TimeoutInterval) :
    (checkESP32Status now st).1.esp32Status.connected = false ∧
    (checkESP32Status now st).1.esp32Client = st.esp32Client ∧
    (∃ n, Event.broadcastCall (OutMsg.esp32Status "offline" (some ls)) n ∈
      (checkESP32Status now st).2) ∧
    (∀ hid, Event.closedDevice hid ∉ (checkESP32Status now st).2) := by
  simp only [checkESP32Status, hl]
  rw [if_pos ⟨hc, ht⟩]
  refine ⟨rfl, rfl, ?_, ?_⟩
  · exact ⟨(broadcastToClients st.clients).successCount, by simp [runBroadcast]⟩
  · intro hid hmem
    simp [runBroadcast] at hmem

/-- Witness for C4: a device last seen at time 0 and checked at time 100000
is marked disconnected, its handle stays in the slot, and the offline
broadcast reaches the one registered client. -/
theorem staleness_check_spec_witness :
    (checkESP32Status 100000 staleSt).1.esp32Status.connected = false ∧
    (checkESP32Status 100000 staleSt).1.esp32Client = some devOpen0 ∧
    Event.broadcastCall (OutMsg.esp32Status "offline" (some 0)) 1 ∈
      (checkESP32Status 100000 staleSt).2 := by
  have h := staleness_check_spec staleSt 100000 0 rfl rfl (by decide)
  refine ⟨h.1, ?_, by decide⟩
  rw [h.2.1]
  rfl

/-- C7 counterexample: the claim conditions device-path acceptance on the
origin policy, but the device path short-circuits before any check: a
device-path request from an origin the policy rejects is still accepted. -/
theorem device_path_origin_counterexample :
    handleUpgrade cfgStrict noVerifier reqEspEvil =
      UpgradeDecision.acceptDevice ∧
    isOriginAllowed cfgStrict reqEspEvil.origin = false := by
  exact ⟨rfl, by decide⟩

/-- C7 amended: an upgrade for the device path is accepted unconditionally —
neither the credential verifier nor the origin policy is consulted.  The
origin policy itself (applied only to other paths) never rejects an absent
or empty origin, and outside development mode rejects a non-empty origin
exactly when it is neither in the computed allow-list nor covered by a
wildcard entry. -/
theorem upgrade_policy_amended :
    (∀ cfg verifier req, req.pathname = "/esp32" →
      handleUpgrade cfg verifier req = UpgradeDecision.acceptDevice) ∧
    (∀ cfg, isOriginAllowed cfg none = true) ∧
    (∀ cfg, isOriginAllowed cfg (some "") = true) ∧
    (∀ cfg o, cfg.devMode = false →
      (isOriginAllowed cfg (some o) = false ↔
        (o ≠ "" ∧ (allowedOrigins cfg).contains o = false ∧
          (allowedOrigins cfg).contains "*" = false))) := by
  refine ⟨?_, ?_, ?_, ?_⟩
  · intro cfg verifier req hp
    rw [handleUpgrade, if_pos hp]
  · intro cfg
    rfl
  · intro cfg
    simp [isOriginAllowed]
  · intro cfg o hdev
    rw [isOriginAllowed]
    by_cases he : o = ""
    · simp [he]
    · rw [if_neg (by simp [he, hdev])]
      cases hco : (allowedOrigins cfg).contains o <;>
        cases hcw : (allowedOrigins cfg).contains "*" <;> simp [he, hco, hcw]

/-- Witness for C7: the strict configuration accepts a device-path request
with no origin, allows absent and empty origins, and rejects the evil
origin. -/
theorem upgrade_policy_amended_witness :
    handleUpgrade cfgStrict noVerifier reqEspNoOrigin =
      UpgradeDecision.acceptDevice ∧
    isOriginAllowed cfgStrict none = true ∧
    isOriginAllowed cfgStrict (some "") = true ∧
    isOriginAllowed cfgStrict (some "http://evil.example") = false := by
  have h := upgrade_policy_amended
  refine ⟨h.1 cfgStrict noVerifier reqEspNoOrigin rfl, h.2.1 cfgStrict,
    h.2.2.1 cfgStrict, ?_⟩
  exact (h.2.2.2 cfgStrict "http://evil.example" rfl).mpr
    ⟨by decide, by decide, by decide⟩

/-- C8: a control-esp32 request with no open device handle produces an error
reply to the requester and no device-bound send; with an open device it
forwards a command envelope carrying the generated correlation identifier
and the requesting identity, and separately sends the requester a
command-sent acknowledgment. -/
theorem control_relay_spec (now : Nat) (st : GatewayState) (uid : String)
    (m : ControlMsg) :
    (deviceOpen st = false →
      (∃ ok, Event.sentToUser uid (OutMsg.errorMsg "ESP32 not connected") ok ∈
        (handleControlESP32 now st uid m).2) ∧
      (∀ env dl, Event.sentToDevice env dl ∉ (handleControlESP32 now st uid m).2)) ∧
    (∀ d, st.esp32Client = some d → d.readyState = ReadyState.rsOpen →
      Event.sentToDevice
          (OutMsg.command m.command (m.parameters.getD "\x7b\x7d")
            ("cmd_" ++ toString now) uid) (!d.sendFails) ∈
        (handleControlESP32 now st uid m).2 ∧
      (∃ ok, Event.sentToUser uid (OutMsg.commandSent m.command) ok ∈
        (handleControlESP32 now st uid m).2)) := by
  constructor
  · intro hc
    rw [handleControlESP32, if_neg (by simp [hc])]
    constructor
    · exact ⟨(sendToUser st.clients uid).2, by simp⟩
    · intro env dl hmem
      simp at hmem
  · intro d hd hr
    have hopen : deviceOpen st = true := by simp [deviceOpen, hd, hr]
    rw [handleControlESP32, if_pos hopen]
    have hs : sendToESP32 st
        (OutMsg.command m.command (m.parameters.getD "\x7b\x7d")
          ("cmd_" ++ toString now) uid) =
        (!d.sendFails,
         [Event.sentToDevice
           (OutMsg.command m.command (m.parameters.getD "\x7b\x7d")
             ("cmd_" ++ toString now) uid) (!d.sendFails)]) := by
      simp [sendToESP32, hd, hr]
    constructor
    · simp [hs]
    · exact ⟨(sendToUser st.clients uid).2, by simp [hs]⟩

/-- Witness for C8: with no device the requester alice gets the error reply;
with an open device the command envelope for time 7 reaches the device. -/
theorem control_relay_spec_witness :
    (∃ ok, Event.sentToUser "alice" (OutMsg.errorMsg "ESP32 not connected") ok ∈
      (handleControlESP32 7 noDevSt "alice" ctlMsg).2) ∧
    Event.sentToDevice
        (OutMsg.command "start" "\x7b\x7d" ("cmd_" ++ toString 7) "alice") true ∈
      (handleControlESP32 7 devSt2 "alice" ctlMsg).2 := by
  have h1 := (control_relay_spec 7 noDevSt "alice" ctlMsg).1 rfl
  have h2 := (control_relay_spec 7 devSt2 "alice" ctlMsg).2 devOpen0 rfl rfl
  exact ⟨h1.1, h2.1⟩

/-- C9 counterexample: a reachable state with isStreaming true while
connected is false — the device registers, reports isStreaming, then the
staleness check clears connected without touching isStreaming. -/
theorem streaming_invariant_counterexample :
    ∃ s, Reachable s ∧ s.esp32Status.isStreaming = true ∧
      s.esp32Status.connected = false := by
  refine ⟨stStreamBroken, ?_, by decide, by decide⟩
  exact Reachable.step _ _ (Reachable.step _ _ (Reachable.step _ _ Reachable.init))

/-- C9 amended: registration and transport-level disconnect (re-)establish
the invariant that isStreaming implies connected, and device frames preserve
connected; but the staleness check clears only connected and leaves
isStreaming untouched, so after a staleness timeout while streaming the
invariant is violated. -/
theorem streaming_invariant_amended :
    (∀ st now ws, streamInv (stepState st (GAction.registerDevice now ws))) ∧
    (∀ st, (stepState st GAction.espClose).esp32Status.isStreaming = false ∧
      (stepState st GAction.espClose).esp32Status.connected = false) ∧
    (∀ st now, (stepState st (GAction.statusCheck now)).esp32Status.isStreaming =
      st.esp32Status.isStreaming) ∧
    (∀ st now storeOk f, st.esp32Status.connected = true →
      (stepState st (GAction.espFrame now storeOk f)).esp32Status.connected = true) := by
  refine ⟨?_, ?_, ?_, ?_⟩
  · intro st now ws _
    rfl
  · intro st
    exact ⟨rfl, rfl⟩
  · intro st now
    simp only [stepState, stepEv, checkESP32Status]
    split
    · split
      · rfl
      · rfl
    · rfl
  · intro st now storeOk f hc
    rw [espFrame_connected]
    exact hc

/-- Witness for C9 amended: the four conjuncts evaluated on concrete states
— a fresh registration satisfies the invariant, a disconnect clears both
flags, a staleness tick preserves isStreaming, and a malformed frame on a
connected device preserves connected. -/
theorem streaming_invariant_amended_witness :
    streamInv (stepState initialState (GAction.registerDevice 0 devOpen0)) ∧
    (stepState initialState GAction.espClose).esp32Status.isStreaming = false ∧
    (stepState initialState (GAction.statusCheck 5)).esp32Status.isStreaming =
      initialState.esp32Status.isStreaming ∧
    (stepState connectedSt (GAction.espFrame 1 true EspFrame.malformed)).esp32Status.connected
      = true := by
  have h := streaming_invariant_amended
  exact ⟨h.1 initialState 0 devOpen0, (h.2.1 initialState).1,
    h.2.2.1 initialState 5,
    h.2.2.2 connectedSt 1 true EspFrame.malformed rfl⟩

/-- C10: handling any inbound device frame, and any low-level keepalive
acknowledgment, leaves connected unchanged and refreshes lastSeen to now;
and in the step relation connected can become true only if it already was,
or through a device registration. -/
theorem connected_transitions_spec :
    (∀ st now storeOk f,
      (stepState st (GAction.espFrame now storeOk f)).esp32Status.connected =
        st.esp32Status.connected ∧
      (stepState st (GAction.espFrame now storeOk f)).esp32Status.lastSeen =
        some now) ∧
    (∀ st now,
      (stepState st (GAction.espPong now)).esp32Status.connected =
        st.esp32Status.connected ∧
      (stepState st (GAction.espPong now)).esp32Status.lastSeen = some now) ∧
    (∀ st a, (stepState st a).esp32Status.connected = true →
      st.esp32Status.connected = true ∨
        ∃ now ws, a = GAction.registerDevice now ws) := by
  refine ⟨?_, ?_, ?_⟩
  · intro st now storeOk f
    exact ⟨espFrame_connected st now storeOk f, espFrame_lastSeen st now storeOk f⟩
  · intro st now
    exact ⟨rfl, rfl⟩
  · intro st a h
    cases a with
    | registerDevice now ws => exact Or.inr ⟨now, ws, rfl⟩
    | espFrame now storeOk f =>
      rw [espFrame_connected] at h
      exact Or.inl h
    | espPong now => exact Or.inl h
    | espClose =>
      exfalso
      simp [stepState, stepEv, handleESP32Disconnect, runBroadcast] at h
    | statusCheck now =>
      left
      revert h
      simp only [stepState, stepEv, checkESP32Status]
      split
      · split
        · intro h
          exfalso
          simp at h
        · exact id
      · exact id
    | heartbeat => exact Or.inl h
    | registerClient uid c => exact Or.inl h
    | clientPong uid => exact Or.inl h
    | clientClose uid => exact Or.inl h
    | controlEsp32 now uid m =>
      left
      revert h
      simp only [stepState, stepEv, handleControlESP32]
      split
      · exact id
      · exact id

/-- Witness for C10: a frame on a connected device keeps connected and
stamps lastSeen; a keepalive acknowledgment does the same; and the step that
turns connected on from the initial state is a device registration. -/
theorem connected_transitions_spec_witness :
    (stepState connectedSt (GAction.espFrame 42 true EspFrame.malformed)).esp32Status.connected
      = connectedSt.esp32Status.connected ∧
    (stepState connectedSt (GAction.espFrame 42 true EspFrame.malformed)).esp32Status.lastSeen
      = some 42 ∧
    (stepState connectedSt (GAction.espPong 43)).esp32Status.lastSeen = some 43 ∧
    (initialState.esp32Status.connected = true ∨
      ∃ now ws, GAction.registerDevice 0 devOpen0 = GAction.registerDevice now ws) := by
  have h := connected_transitions_spec
  exact ⟨(h.1 connectedSt 42 true EspFrame.malformed).1,
    (h.1 connectedSt 42 true EspFrame.malformed).2,
    (h.2.1 connectedSt 43).2,
    h.2.2 initialState (GAction.registerDevice 0 devOpen0) rfl⟩

end Gateway
